import Mathlib

/-!
# HomeEyeView surveillance controller — shallow embedding

This file embeds the core logic of `src/app.py` (class `SurveillanceSystem`
and the camera adapter factory) into Lean and proves properties about it.

Modelling conventions:
* Python `None` becomes `Option.none`; a Python value that may be `None` or a
  number becomes `Option Int`.  Python truthiness of a numeric duration
  (`if duration:`) is `d ≠ 0` on the `some` case and false on `none`.
* Wall-clock times (`time.time()`, `datetime.now()`) are integers (seconds).
* Exceptions raised by external libraries (camera constructors, the Pi
  `set_controls` call) are modelled as explicit `Except Unit Unit` inputs;
  the embedding of a `try/except` block then branches on them.
* Filesystem operations (`os.makedirs`, `shutil.rmtree`) are assumed to
  succeed; the directory listing is an explicit `List String` argument.
* The recording thread's loop is embedded as structural recursion over an
  explicit list of "ticks", one per loop iteration, each carrying the value
  of the shared `is_recording` flag observed at the loop head, the outcome
  of the frame capture/write for that iteration, and the current time.
-/

namespace HomeEyeView

/-! ## Sequential system state (`SurveillanceSystem` fields used by the API) -/

/-- The arguments `start_recording` hands to the recording thread
(`threading.Thread(target=self._record_video, args=(filepath, duration))`),
together with the trigger that named the file. -/
structure Session where
  duration : Option Int
  trigger : String
  deriving Repr, DecidableEq

/-- The fields of `SurveillanceSystem.__init__` that the embedded operations
read or write.  `session` records the live recording thread's parameters
(`recording_thread`); `none` means no thread was started. -/
structure SysState where
  is_recording : Bool
  motion_detection_enabled : Bool
  recording_duration : Int
  session : Option Session
  deriving Repr, DecidableEq

/-- `SurveillanceSystem.__init__`: `is_recording = False`,
`motion_detection_enabled = False`, `recording_duration = 180`. -/
def initState : SysState :=
  { is_recording := false
    motion_detection_enabled := false
    recording_duration := 180
    session := none }

/-- `SurveillanceSystem.start_recording` (src/app.py:197-222).  Returns the
new state, the success flag and the message.  The filesystem calls in the
`try` block are modelled as succeeding, so the `except` branch that resets
`is_recording` is not reachable in the model. -/
def start_recording (s : SysState) (duration : Option Int) (trigger : String) :
    SysState × Bool × String :=
  if s.is_recording then
    (s, false, "Already recording")
  else
    ({ s with is_recording := true, session := some ⟨duration, trigger⟩ },
     true, "Recording started: " ++ trigger)

/-- `SurveillanceSystem.stop_recording` (src/app.py:258-267).  Clears the
flag and joins the thread (the join itself has no effect on these fields). -/
def stop_recording (s : SysState) : SysState × Bool × String :=
  if !s.is_recording then
    (s, false, "Not currently recording")
  else
    ({ s with is_recording := false }, true, "Recording stopped")

/-- `SurveillanceSystem.motion_detected` (src/app.py:182-186): the PIR
callback.  Its return value is discarded by the GPIO driver, so only the
state effect is kept. -/
def motion_detected (s : SysState) : SysState :=
  if s.motion_detection_enabled && !s.is_recording then
    (start_recording s (some s.recording_duration) "motion").1
  else
    s

/-! ## Camera adapter factory (`init_camera`, src/app.py:153-169) -/

/-- The three adapter classes. -/
inductive AdapterKind
  | pi
  | opencv
  | synthetic
  deriving Repr, DecidableEq

/-- Python `try: body except: handler` where the handler itself may raise. -/
def tryE (body : Except Unit AdapterKind) (handler : Except Unit AdapterKind) :
    Except Unit AdapterKind :=
  match body with
  | .ok a => .ok a
  | .error _ => handler

/-- `PiCameraAdapter()` — the constructor touches real hardware and may
raise; `fails` says whether it does. -/
def piCameraCtor (fails : Bool) : Except Unit AdapterKind :=
  if fails then .error () else .ok .pi

/-- `OpenCVCameraAdapter()` — raises `Exception("Failed to open camera")`
when `cv2.VideoCapture(0)` is not opened. -/
def openCVCameraCtor (fails : Bool) : Except Unit AdapterKind :=
  if fails then .error () else .ok .opencv

/-- `SyntheticCameraAdapter()` — its `__init__` only sets a counter and
prints, so it never raises. -/
def syntheticCameraCtor : Except Unit AdapterKind :=
  .ok .synthetic

/-- `SurveillanceSystem.init_camera`: outer `try` picks PiCamera when the
module import succeeded, otherwise an inner `try` picks OpenCV with a synthetic
fallback; the outer `except` falls back to synthetic as well.  A result of
`.error ()` would mean a construction exception escaped to the caller. -/
def init_camera (picameraAvailable piFails cvFails : Bool) :
    Except Unit AdapterKind :=
  tryE
    (if picameraAvailable then
      piCameraCtor piFails
    else
      tryE (openCVCameraCtor cvFails) syntheticCameraCtor)
    syntheticCameraCtor

/-! ## The recording thread (`_record_video`, src/app.py:224-256) -/

/-- Outcome of one iteration of the capture loop:
`noFrame` — `get_frame()` returned `None` (its own `try` turns capture
errors into `None`), nothing written; `frameOk` — a frame was converted and
written successfully; `frameRaises` — the colour conversion or
`out.write` raised. -/
inductive TickEvent
  | noFrame
  | frameOk
  | frameRaises
  deriving Repr, DecidableEq

/-- One iteration of `while self.is_recording:`: the flag value read at the
loop head, what the body did, and `time.time()` at the duration check. -/
structure Tick where
  recFlag : Bool
  ev : TickEvent
  now : Int
  deriving Repr, DecidableEq

/-- How the capture loop ended. `running` means the supplied tick list was
exhausted with the loop still going (the model's fuel ran out). -/
inductive LoopExit
  | stopped
  | durationCap
  | errored
  | running
  deriving Repr, DecidableEq

/-- `if duration and (time.time() - start_time) >= duration:` — Python
truthiness: `None` and `0` are falsy. -/
def durationExpired (duration : Option Int) (startTime now : Int) : Bool :=
  match duration with
  | none => false
  | some d => d != 0 && now - startTime ≥ d

/-- The `while self.is_recording:` loop of `_record_video`, driven by the
tick list. -/
def recordLoop (duration : Option Int) (startTime : Int) :
    List Tick → LoopExit
  | [] => .running
  | t :: rest =>
    if !t.recFlag then
      .stopped
    else
      match t.ev with
      | .frameRaises => .errored
      | _ =>
        if durationExpired duration startTime t.now then
          .durationCap
        else
          recordLoop duration startTime rest

/-- Result of one `_record_video` run: how the loop exited, how many times
`out.release()` was executed, and the final `is_recording` value. -/
structure RecordOutcome where
  exit : LoopExit
  sinkCloses : Nat
  is_recording : Bool
  deriving Repr, DecidableEq

/-- `SurveillanceSystem._record_video`: open the sink, run the loop, then
`out.release()` — but the release sits inside the `try`, after the loop, so
an exception in the loop body jumps to the `except` handler and skips it;
only the `finally` (clearing `is_recording`) runs on every completed path.
On `running` the thread has not finished: the sink is still open and the
flag still set. -/
def recordVideo (duration : Option Int) (startTime : Int) (ticks : List Tick) :
    RecordOutcome :=
  match recordLoop duration startTime ticks with
  | .stopped => ⟨.stopped, 1, false⟩
  | .durationCap => ⟨.durationCap, 1, false⟩
  | .errored => ⟨.errored, 0, false⟩
  | .running => ⟨.running, 0, true⟩

/-! ## Interleaving model of concurrent `start_recording` calls

`start_recording` guards the transition with
`if self.is_recording: return False, "Already recording"` followed by
`self.is_recording = True` — two separate bytecode-level steps on the shared
flag, with no lock.  A Flask request thread and the GPIO callback thread can
interleave between them.  Each thread is reduced to its two actions on the
shared flag: the check and the set. -/

/-- Program counter of one thread inside `start_recording`. -/
inductive StartPc
  | atCheck
  | atSet
  | doneSuccess
  | doneDeclined
  deriving Repr, DecidableEq

/-- Shared flag plus the two racing threads. -/
structure RaceState where
  is_recording : Bool
  pc0 : StartPc
  pc1 : StartPc
  deriving Repr, DecidableEq

/-- One atomic action of a thread running `start_recording`:
at `atCheck` it reads `self.is_recording` and either returns declined or
moves on; at `atSet` it writes `self.is_recording = True` and goes on to
return success.  Finished threads do nothing. -/
def startStep (flag : Bool) : StartPc → StartPc × Bool
  | .atCheck => if flag then (.doneDeclined, flag) else (.atSet, flag)
  | .atSet => (.doneSuccess, true)
  | pc => (pc, flag)

/-- Run the thread chosen by the scheduler (`false` = thread 0,
`true` = thread 1) for one atomic action. -/
def raceStep (s : RaceState) (tid : Bool) : RaceState :=
  if tid then
    let (pc, flag) := startStep s.is_recording s.pc1
    { s with pc1 := pc, is_recording := flag }
  else
    let (pc, flag) := startStep s.is_recording s.pc0
    { s with pc0 := pc, is_recording := flag }

/-- Run a whole schedule of thread choices. -/
def runSchedule (s : RaceState) : List Bool → RaceState
  | [] => s
  | tid :: rest => runSchedule (raceStep s tid) rest

/-- Both threads about to call `start_recording` while the recorder is
Idle. -/
def raceInit : RaceState :=
  { is_recording := false, pc0 := .atCheck, pc1 := .atCheck }

/-! ## Camera settings (`update_camera_setting`, src/app.py:269-296) -/

/-- A JSON settings value as it arrives from the API layer. -/
inductive PyVal
  | num (n : Int)
  | str (s : String)
  deriving Repr, DecidableEq

/-- The settings dict is an association list keyed by strings. -/
abbrev Settings := List (String × PyVal)

/-- `setting in self.camera_settings`. -/
def dictContains (d : Settings) (k : String) : Bool :=
  d.any (fun p => p.1 == k)

/-- `self.camera_settings[setting] = value` when `setting` is a present
key: replace the binding in place. -/
def dictSet (d : Settings) (k : String) (v : PyVal) : Settings :=
  d.map (fun p => if p.1 == k then (k, v) else p)

/-- Lookup of a settings key. -/
def dictGet (d : Settings) (k : String) : Option PyVal :=
  (d.find? (fun p => p.1 == k)).map Prod.snd

/-- `self.camera_settings` as built by `__init__` — the fixed, enumerated
key set.  `contrast` and `zoom` start at the float `1.0`, modelled as the
number 1 (the claims never inspect these values). -/
def initialSettings : Settings :=
  [("brightness", .num 0), ("contrast", .num 1), ("zoom", .num 1),
   ("white_balance", .str "auto"), ("exposure_mode", .str "auto"),
   ("focus", .str "auto")]

/-- `SurveillanceSystem.update_camera_setting`.  `hwApply` is the outcome
of the body between the dict store and the `return True` — the
`float(value)` conversions and Pi `set_controls` calls, any of which may
raise (on a non-Pi adapter that body is skipped and `hwApply` is `.ok ()`).
Note the dict store happens before `hwApply` is consulted, and the
`except` handler does not undo it. -/
def update_camera_setting (d : Settings) (k : String) (v : PyVal)
    (hwApply : Except Unit Unit) : Settings × Bool × String :=
  if dictContains d k then
    let d' := dictSet d k v
    match hwApply with
    | .ok _ => (d', true, "Updated " ++ k)
    | .error _ => (d', false, "Failed to update " ++ k)
  else
    (d, false, "Invalid setting: " ++ k)

/-! ## Retention sweep (`cleanup_old_recordings`, src/app.py:339-359)

`datetime.strptime(date_folder, "%Y-%m-%d")` is embedded as `parseDate`:
`%Y` matches 1-4 digits (year ≥ 1), `%m` and `%d` match 1-2 digits, the
separators must be literal hyphens, and the day must exist in the month
(Python validates the calendar, e.g. `2024-02-30` raises `ValueError`).
`datetime` values are compared via days-since-epoch × 86400 seconds. -/

/-- Gregorian leap year. -/
def isLeap (y : Nat) : Bool :=
  (y % 4 == 0 && y % 100 != 0) || y % 400 == 0

/-- Days in a month of the proleptic Gregorian calendar. -/
def daysInMonth (y m : Nat) : Nat :=
  if m == 2 then (if isLeap y then 29 else 28)
  else if m == 4 || m == 6 || m == 9 || m == 11 then 30
  else 31

/-- Split a character list at every `'-'` (the literal separators of the
`"%Y-%m-%d"` format); `"a-b".splitOn "-"` semantics at the character
level. -/
def splitFields : List Char → List (List Char)
  | [] => [[]]
  | c :: cs =>
    if c = '-' then
      [] :: splitFields cs
    else
      match splitFields cs with
      | [] => [[c]]
      | f :: fs => (c :: f) :: fs

/-- Numeric value of a digit string (`int` on the matched group). -/
def fieldToNat (cs : List Char) : Nat :=
  cs.foldl (fun a c => a * 10 + (c.toNat - 48)) 0

/-- The `%Y` directive: CPython's `_strptime` compiles it to the regex
`\d\d\d\d` — exactly four digits (the year is then range-checked by the
`datetime` constructor, below). -/
def parseYear (cs : List Char) : Option Nat :=
  if cs.length == 4 && cs.all Char.isDigit then
    some (fieldToNat cs)
  else
    none

/-- The `%m` directive: `1[0-2]|0[1-9]|[1-9]` — one or two digits (the
in-range constraint of the regex is folded into the value check below,
which rejects the same strings). -/
def parseMonth (cs : List Char) : Option Nat :=
  if 1 ≤ cs.length && cs.length ≤ 2 && cs.all Char.isDigit then
    some (fieldToNat cs)
  else
    none

/-- The `%d` directive: `3[01]|[12]\d|0[1-9]|[1-9]| [1-9]` — one or two
digits, or a space followed by a nonzero digit (space-padded day); the
numeric bound of the regex coincides with the calendar check below. -/
def parseDay (cs : List Char) : Option Nat :=
  match cs with
  | [' ', c] =>
    if '1' ≤ c && c ≤ '9' then some (c.toNat - 48) else none
  | _ =>
    if 1 ≤ cs.length && cs.length ≤ 2 && cs.all Char.isDigit then
      some (fieldToNat cs)
    else
      none

/-- `datetime.strptime(name, "%Y-%m-%d")`, reduced to the parsed
(year, month, day); `none` where Python raises `ValueError`, either
because the directive regexes do not match the whole string or because
the `datetime` constructor rejects the values (year below `MINYEAR = 1`,
month outside 1-12, day outside the month). -/
def parseDate (s : String) : Option (Nat × Nat × Nat) :=
  match splitFields s.data with
  | [ys, ms, ds] =>
    match parseYear ys, parseMonth ms, parseDay ds with
    | some y, some m, some d =>
      if 1 ≤ y && 1 ≤ m && m ≤ 12 && 1 ≤ d && d ≤ daysInMonth y m then
        some (y, m, d)
      else
        none
    | _, _, _ => none
  | _ => none

/-- Days since 0000-03-01 of the proleptic Gregorian calendar (the civil
day-count algorithm); monotone in calendar order, which is all the
comparison below needs. -/
def dateToDays (y m d : Nat) : Nat :=
  let yy := if m ≤ 2 then y - 1 else y
  let era := yy / 400
  let yoe := yy % 400
  let mp := (m + 9) % 12
  let doy := (153 * mp + 2) / 5 + (d - 1)
  let doe := yoe * 365 + yoe / 4 - yoe / 100 + doy
  era * 146097 + doe

/-- The body of the per-folder `try`: parse the name (on `ValueError`,
`continue`) and compare the parsed midnight datetime with
`cutoff_date = datetime.now() - timedelta(days=self.auto_delete_days)`,
both as seconds; `now` is the current time in seconds. -/
def shouldDelete (autoDeleteDays : Nat) (now : Int) (name : String) : Bool :=
  match parseDate name with
  | some (y, m, d) =>
    (dateToDays y m d : Int) * 86400 < now - (autoDeleteDays : Int) * 86400
  | none => false

/-- The `for date_folder in os.listdir(...)` loop: returns the listing that
survives (rmtree'd folders removed) and `deleted_count`. -/
def sweepFolders (autoDeleteDays : Nat) (now : Int) :
    List String → List String × Nat
  | [] => ([], 0)
  | name :: rest =>
    let (rem, cnt) := sweepFolders autoDeleteDays now rest
    if shouldDelete autoDeleteDays now name then
      (rem, cnt + 1)
    else
      (name :: rem, cnt)

/-- `SurveillanceSystem.cleanup_old_recordings`: sweep the listing and
report the count.  `shutil.rmtree` is modelled as succeeding, so the outer
`except` branch is unreachable and the success flag is `true`. -/
def cleanup_old_recordings (autoDeleteDays : Nat) (now : Int)
    (listing : List String) : List String × Bool × String :=
  let (rem, cnt) := sweepFolders autoDeleteDays now listing
  (rem, true, "Deleted " ++ toString cnt ++ " old recording folders")

/-! ## Helper lemmas -/

/-- A truthy duration cap reduces the duration check to the elapsed-time
comparison. -/
theorem durationExpired_some (d startTime now : Int) (hd : d ≠ 0) :
    durationExpired (some d) startTime now = decide (now - startTime ≥ d) := by
  simp [durationExpired, hd]

/-- If the cap is truthy and some tick reaches it while the flag stays set
and no iteration raises, the loop exits through the duration check. -/
theorem recordLoop_reaches_cap (d startTime : Int) (hd : d ≠ 0) :
    ∀ ticks : List Tick,
      (∀ t ∈ ticks, t.recFlag = true ∧ t.ev ≠ TickEvent.frameRaises) →
      (∃ t ∈ ticks, t.now - startTime ≥ d) →
      recordLoop (some d) startTime ticks = LoopExit.durationCap := by
  intro ticks
  induction ticks with
  | nil =>
    intro _ hcap
    simp at hcap
  | cons t rest ih =>
    intro hrun hcap
    obtain ⟨hflag, hev⟩ := hrun t (List.mem_cons_self t rest)
    by_cases hnow : t.now - startTime ≥ d
    · cases hevv : t.ev with
      | frameRaises => exact absurd hevv hev
      | noFrame =>
        simp [recordLoop, hflag, hevv, durationExpired_some d startTime t.now hd, hnow]
      | frameOk =>
        simp [recordLoop, hflag, hevv, durationExpired_some d startTime t.now hd, hnow]
    · have hrest : recordLoop (some d) startTime rest = LoopExit.durationCap := by
        apply ih
        · intro u hu
          exact hrun u (List.mem_cons_of_mem t hu)
        · obtain ⟨u, hu, hcapu⟩ := hcap
          rcases List.mem_cons.mp hu with rfl | hu'
          · exact absurd hcapu hnow
          · exact ⟨u, hu', hcapu⟩
      cases hevv : t.ev with
      | frameRaises => exact absurd hevv hev
      | noFrame =>
        simp [recordLoop, hflag, hevv, durationExpired_some d startTime t.now hd, hnow, hrest]
      | frameOk =>
        simp [recordLoop, hflag, hevv, durationExpired_some d startTime t.now hd, hnow, hrest]

/-! ## Claim theorems -/

/-- Claim C1: the spec requires that two concurrent `start_recording`
calls from Idle have exactly one winner, the loser observing
`AlreadyRecording`, with an atomic Idle-to-Recording check-and-set.  The
code guards the transition with a plain check-then-set on `is_recording`
and no lock, so the interleaving check0, check1, set0, set1 lets both
callers pass the guard: both threads finish with `doneSuccess`, violating
the at-most-one-live-session property. -/
theorem start_recording_race_both_succeed :
    runSchedule raceInit [false, true, false, true] =
      { is_recording := true, pc0 := StartPc.doneSuccess,
        pc1 := StartPc.doneSuccess } := by
  rfl

/-- Claim C2: the spec says the sink is closed exactly once however the
capture loop exits.  In `_record_video` the `out.release()` call sits
inside the `try` block after the loop, so the stop and duration-cap exits
do close the sink exactly once, but an exception raised while converting
or writing a frame jumps to the `except` handler and skips the release:
that exit closes the sink zero times, leaking the handle. -/
theorem record_video_sink_close_paths :
    (recordVideo none 0 [⟨true, TickEvent.frameRaises, 1⟩]).sinkCloses = 0 ∧
    (recordVideo none 0 [⟨false, TickEvent.frameOk, 1⟩]).sinkCloses = 1 ∧
    (recordVideo (some 5) 0 [⟨true, TickEvent.frameOk, 6⟩]).sinkCloses = 1 :=
  ⟨rfl, rfl, rfl⟩

/-- Claim C3: `start_recording` while already recording and
`stop_recording` while idle are declined with a failure flag plus message
(`"Already recording"` / `"Not currently recording"`), leaving the state
unchanged, rather than raising. -/
theorem state_gates_declined (s : SysState) (d : Option Int) (tr : String) :
    (s.is_recording = true →
      start_recording s d tr = (s, false, "Already recording")) ∧
    (s.is_recording = false →
      stop_recording s = (s, false, "Not currently recording")) := by
  constructor
  · intro h
    simp [start_recording, h]
  · intro h
    simp [stop_recording, h]

/-- Witness for `state_gates_declined`: concrete busy and idle states. -/
theorem state_gates_declined_witness :
    start_recording { initState with is_recording := true } none "manual" =
      ({ initState with is_recording := true }, false, "Already recording") ∧
    stop_recording initState = (initState, false, "Not currently recording") :=
  ⟨(state_gates_declined { initState with is_recording := true } none "manual").1 rfl,
   (state_gates_declined initState none "manual").2 rfl⟩

/-- Claim C4 counterexample: a recording started with the non-null
duration cap 0 has long exceeded the cap (elapsed 1000 s), yet the loop is
still running and `is_recording` still true — `if duration:` is false for
the cap 0, so the loop never self-terminates, contradicting the claim for
that non-null cap. -/
theorem duration_cap_zero_never_self_stops :
    recordVideo (some 0) 0 [⟨true, TickEvent.frameOk, 1000⟩] =
      ⟨LoopExit.running, 0, true⟩ := by
  rfl

/-- Claim C4 (amended: the duration cap must be non-null and nonzero,
since Python truthiness treats a cap of 0 as absent): when a nonzero cap
is set, the flag stays up (no external stop) and no iteration raises, the
loop self-terminates at the first tick whose elapsed time meets or exceeds
the cap, closes the sink once and clears `is_recording`, with no external
stop call. -/
theorem duration_cap_self_terminates (d startTime : Int) (ticks : List Tick)
    (hd : d ≠ 0)
    (hrun : ∀ t ∈ ticks, t.recFlag = true ∧ t.ev ≠ TickEvent.frameRaises)
    (hcap : ∃ t ∈ ticks, t.now - startTime ≥ d) :
    recordVideo (some d) startTime ticks =
      ⟨LoopExit.durationCap, 1, false⟩ := by
  unfold recordVideo
  rw [recordLoop_reaches_cap d startTime hd ticks hrun hcap]

/-- Witness for `duration_cap_self_terminates`: a 5-second cap reached at
the second tick. -/
theorem duration_cap_self_terminates_witness :
    recordVideo (some 5) 0
        [⟨true, TickEvent.frameOk, 1⟩, ⟨true, TickEvent.noFrame, 6⟩] =
      ⟨LoopExit.durationCap, 1, false⟩ :=
  duration_cap_self_terminates 5 0
    [⟨true, TickEvent.frameOk, 1⟩, ⟨true, TickEvent.noFrame, 6⟩]
    (by decide) (by decide) ⟨⟨true, TickEvent.noFrame, 6⟩, by decide⟩

/-- Claim C5: a motion edge while armed and Idle starts exactly one
recording with the fixed 180-second duration and the `"motion"` trigger;
an edge while disarmed or while recording leaves the state completely
unchanged (nothing is queued). -/
theorem motion_detected_edge (s : SysState) :
    (s.motion_detection_enabled = true → s.is_recording = false →
      s.recording_duration = 180 →
      motion_detected s =
        { s with is_recording := true,
                 session := some ⟨some 180, "motion"⟩ }) ∧
    ((s.motion_detection_enabled = false ∨ s.is_recording = true) →
      motion_detected s = s) := by
  constructor
  · intro h1 h2 h3
    simp [motion_detected, h1, h2, start_recording, h3]
  · rintro (h | h) <;> simp [motion_detected, h]

/-- Witness for `motion_detected_edge`: an armed idle state (fires) and
the disarmed initial state (no-op). -/
theorem motion_detected_edge_witness :
    motion_detected { initState with motion_detection_enabled := true } =
      { initState with motion_detection_enabled := true,
                       is_recording := true,
                       session := some ⟨some 180, "motion"⟩ } ∧
    motion_detected initState = initState :=
  ⟨(motion_detected_edge { initState with motion_detection_enabled := true }).1
      rfl rfl rfl,
   (motion_detected_edge initState).2 (Or.inl rfl)⟩

/-- Claim C6: for every availability/failure combination of the hardware
and generic backends, `init_camera` returns `.ok` — no construction
exception escapes and an adapter is always assigned — and when both
backends fail the result is the synthetic adapter. -/
theorem init_camera_always_some_adapter (piAvail piFails cvFails : Bool) :
    (∃ a, init_camera piAvail piFails cvFails = Except.ok a) ∧
    init_camera piAvail true true = Except.ok AdapterKind.synthetic := by
  constructor
  · cases piAvail <;> cases piFails <;> cases cvFails <;> exact ⟨_, rfl⟩
  · cases piAvail <;> rfl

/-- Claim C9: a duration of 0 is falsy in `if duration:`, so the capture
loop behaves exactly as if no cap had been given: it never self-terminates
from elapsed time and the recording runs until `stop_recording` clears the
flag — on every tick sequence the run with cap 0 equals the run with no
cap. -/
theorem duration_zero_treated_as_absent (startTime : Int) (ticks : List Tick) :
    recordVideo (some 0) startTime ticks = recordVideo none startTime ticks := by
  unfold recordVideo
  have h : recordLoop (some 0) startTime ticks = recordLoop none startTime ticks := by
    induction ticks with
    | nil => rfl
    | cons t rest ih =>
      obtain ⟨flag, ev, now⟩ := t
      cases ev <;> simp [recordLoop, durationExpired, ih]
  rw [h]

/-- The folder sweep keeps exactly the non-expired names and counts the
expired ones. -/
theorem sweepFolders_eq (days : Nat) (now : Int) (l : List String) :
    sweepFolders days now l =
      (l.filter (fun n => !shouldDelete days now n),
       l.countP (shouldDelete days now)) := by
  induction l with
  | nil => rfl
  | cons a l ih =>
    simp only [sweepFolders, ih, List.filter_cons, List.countP_cons]
    by_cases h : shouldDelete days now a <;> simp [h]

/-- `shouldDelete` is false exactly when the name does not parse to a date
strictly older than the cutoff. -/
theorem shouldDelete_eq_false_iff (days : Nat) (now : Int) (name : String) :
    shouldDelete days now name = false ↔
      ∀ y m d, parseDate name = some (y, m, d) →
        ¬ ((dateToDays y m d : Int) * 86400 < now - (days : Int) * 86400) := by
  unfold shouldDelete
  cases h : parseDate name with
  | none => simp
  | some t =>
    obtain ⟨y, m, d⟩ := t
    simp

/-- The count of matches is the number of entries the filter drops. -/
theorem countP_eq_length_sub (p : String → Bool) (l : List String) :
    l.countP p = l.length - (l.filter (fun a => !p a)).length := by
  induction l with
  | nil => rfl
  | cons a l ih =>
    have hle : (l.filter (fun a => !p a)).length ≤ l.length :=
      List.length_filter_le _ _
    cases h : p a <;> simp [List.countP_cons, List.filter_cons, h] <;> omega

/-- Strptime fidelity check: `%Y` requires exactly four digits, so a
three-digit year does not parse, while `%d` accepts a space-padded day. -/
theorem parseDate_strptime_edge_cases :
    parseDate "999-01-01" = none ∧
    parseDate "2024-01- 5" = some (2024, 1, 5) ∧
    parseDate "2024-01-01" = some (2024, 1, 1) ∧
    parseDate "2024-1-5" = some (2024, 1, 5) ∧
    parseDate "2024-02-30" = none ∧
    parseDate "0000-01-01" = none ∧
    parseDate "2024- 5-01" = none ∧
    parseDate "notadate" = none := by
  decide

/-- Claim C7: the retention sweep deletes exactly the groups whose parsed
date is strictly older than `now` minus the configured age in days; an
entry whose name does not parse as a date is kept, without error; the
operation succeeds and reports the number of deleted groups; and it is
idempotent — sweeping the surviving listing again at the same instant
deletes nothing and reports zero. -/
theorem cleanup_old_recordings_spec (days : Nat) (now : Int)
    (listing : List String) :
    (∀ name, name ∈ (cleanup_old_recordings days now listing).1 ↔
      name ∈ listing ∧
        ∀ y m d, parseDate name = some (y, m, d) →
          ¬ ((dateToDays y m d : Int) * 86400 <
              now - (days : Int) * 86400)) ∧
    (∀ name ∈ listing, parseDate name = none →
      name ∈ (cleanup_old_recordings days now listing).1) ∧
    (cleanup_old_recordings days now listing).2.1 = true ∧
    (cleanup_old_recordings days now listing).2.2 =
      "Deleted " ++
        toString (listing.length -
          (cleanup_old_recordings days now listing).1.length) ++
        " old recording folders" ∧
    cleanup_old_recordings days now
        (cleanup_old_recordings days now listing).1 =
      ((cleanup_old_recordings days now listing).1, true,
        "Deleted 0 old recording folders") := by
  refine ⟨?_, ?_, ?_, ?_, ?_⟩
  · intro name
    simp [cleanup_old_recordings, sweepFolders_eq, List.mem_filter,
      Bool.not_eq_true', shouldDelete_eq_false_iff]
  · intro name hmem hparse
    simp only [cleanup_old_recordings, sweepFolders_eq]
    refine List.mem_filter.mpr ⟨hmem, ?_⟩
    rw [Bool.not_eq_true', shouldDelete_eq_false_iff]
    intro y m d hc
    rw [hparse] at hc
    cases hc
  · rfl
  · simp only [cleanup_old_recordings, sweepFolders_eq]
    rw [countP_eq_length_sub]
  · simp only [cleanup_old_recordings, sweepFolders_eq]
    have h1 : (listing.filter (fun n => !shouldDelete days now n)).filter
        (fun n => !shouldDelete days now n) =
        listing.filter (fun n => !shouldDelete days now n) :=
      List.filter_eq_self.mpr (fun a ha => (List.mem_filter.mp ha).2)
    have h2 : (listing.filter (fun n => !shouldDelete days now n)).countP
        (shouldDelete days now) = 0 := by
      rw [List.countP_eq_zero]
      intro a ha
      have hkeep := (List.mem_filter.mp ha).2
      rw [Bool.not_eq_true'] at hkeep
      simp [hkeep]
    rw [h1, h2]
    rfl

/-- Witness for `cleanup_old_recordings_spec`, the spec's own example:
with a 7-day cutoff, "now" at 2024-01-15 (739205 days since the civil
epoch) and groups 2024-01-01 and 2024-01-10, one group is deleted and the
re-run on the survivors deletes nothing and reports zero. -/
theorem cleanup_old_recordings_spec_witness :
    (cleanup_old_recordings 7 (739205 * 86400)
        ["2024-01-01", "2024-01-10"]).2.2 =
      "Deleted 1 old recording folders" ∧
    cleanup_old_recordings 7 (739205 * 86400)
        (cleanup_old_recordings 7 (739205 * 86400)
          ["2024-01-01", "2024-01-10"]).1 =
      ((cleanup_old_recordings 7 (739205 * 86400)
          ["2024-01-01", "2024-01-10"]).1,
        true, "Deleted 0 old recording folders") :=
  ⟨by decide,
   (cleanup_old_recordings_spec 7 (739205 * 86400)
      ["2024-01-01", "2024-01-10"]).2.2.2.2⟩

/-- `dictContains` is membership of the key list. -/
theorem dictContains_iff (d : Settings) (k : String) :
    dictContains d k = true ↔ k ∈ d.map Prod.fst := by
  simp only [dictContains, List.any_eq_true, List.mem_map, beq_iff_eq]

/-- Claim C8: a key outside the fixed enumerated settings key set is
rejected with a failure result and the settings mapping is returned
entirely unchanged.  The key-list hypothesis pins the dict to the key set
enumerated in `__init__` (which every update preserves, since `dictSet`
only replaces values of present keys). -/
theorem update_unknown_setting_rejected (d : Settings) (k : String)
    (v : PyVal) (hw : Except Unit Unit)
    (hkeys : d.map Prod.fst = initialSettings.map Prod.fst)
    (hk : k ∉ ["brightness", "contrast", "zoom", "white_balance",
               "exposure_mode", "focus"]) :
    update_camera_setting d k v hw = (d, false, "Invalid setting: " ++ k) := by
  have hnot : ¬ dictContains d k = true := by
    intro hcon
    have hmem := (dictContains_iff d k).mp hcon
    rw [hkeys] at hmem
    simp only [initialSettings, List.map_cons, List.map_nil,
      List.mem_cons, List.not_mem_nil, or_false] at hmem
    rcases hmem with rfl | rfl | rfl | rfl | rfl | rfl <;> simp at hk
  have hc : dictContains d k = false := Bool.eq_false_iff.mpr hnot
  simp [update_camera_setting, hc]

/-- Witness for `update_unknown_setting_rejected`: the unknown key
"gamma" against the initial settings. -/
theorem update_unknown_setting_rejected_witness :
    update_camera_setting initialSettings "gamma" (PyVal.num 5)
        (Except.ok ()) =
      (initialSettings, false, "Invalid setting: gamma") :=
  update_unknown_setting_rejected initialSettings "gamma" (PyVal.num 5)
    (Except.ok ()) rfl (by decide)

/-- Updating a present key makes the new value the stored binding. -/
theorem dictGet_dictSet (d : Settings) (k : String) (v : PyVal)
    (h : dictContains d k = true) :
    dictGet (dictSet d k v) k = some v := by
  induction d with
  | nil => simp [dictContains] at h
  | cons p rest ih =>
    by_cases hpk : (p.1 == k) = true
    · simp [dictGet, dictSet, List.find?, hpk]
    · have hrest : dictContains rest k = true := by
        simp only [dictContains, List.any_cons, Bool.or_eq_true] at h
        rcases h with h | h
        · exact absurd h hpk
        · exact h
      simpa [dictGet, dictSet, List.find?, hpk] using ih hrest

/-- Claim C10: for a known settings key, the new value is stored in the
settings dict before the hardware-apply body runs; when that body raises,
the call reports failure yet the dict retains the new value — the update
is not rolled back on error. -/
theorem update_setting_no_rollback (d : Settings) (k : String) (v : PyVal)
    (h : dictContains d k = true) :
    update_camera_setting d k v (Except.error ()) =
      (dictSet d k v, false, "Failed to update " ++ k) ∧
    dictGet (dictSet d k v) k = some v := by
  refine ⟨?_, dictGet_dictSet d k v h⟩
  simp [update_camera_setting, h]

/-- Witness for `update_setting_no_rollback`: setting "brightness" to 5
while the Pi `set_controls` call raises. -/
theorem update_setting_no_rollback_witness :
    update_camera_setting initialSettings "brightness" (PyVal.num 5)
        (Except.error ()) =
      (dictSet initialSettings "brightness" (PyVal.num 5), false,
        "Failed to update brightness") ∧
    dictGet (dictSet initialSettings "brightness" (PyVal.num 5))
        "brightness" = some (PyVal.num 5) :=
  update_setting_no_rollback initialSettings "brightness" (PyVal.num 5) rfl

end HomeEyeView
